import Mathlib

/-!
Shallow embedding of the repository's single source file,
src/mqtt_time_publisher.py, together with proofs of the specified
properties of its publisher session manager.

Modelling conventions.  The script's mutable `self.connected` flag is a
`Bool` passed explicitly.  Interactions with the broker (delivered through
the paho client library and its background I/O thread) are modelled by
explicit environment values: a `ConnectEnv` describes what happens to one
`connect()` call (an exception from the client, silence, or an `on_connect`
callback delivering reason code `rc` after a given number of 0.5-unit poll
steps), an `Option Nat` describes the outcome of one `client.publish` call
(`none` means the call raised an exception, `some rc` means it returned
result code `rc`), and an `IterEnv` describes what the environment does to
one iteration of `run()`'s main loop (a KeyboardInterrupt, an unexpected
exception, or a normal step whose `asyncDisconnect` component records
whether the background thread delivered an `on_disconnect` callback before
the loop reads the flag).  Time-unit quantities (`time.sleep` arguments)
are recorded in the event trace.
-/

namespace MqttTimePublisher

/-- Configuration constant `MQTT_HOST` from the script. -/
def MQTT_HOST : String := "192.168.1.100"

/-- Configuration constant `MQTT_PORT` from the script. -/
def MQTT_PORT : Nat := 1883

/-- Configuration constant `MQTT_BASE` from the script. -/
def MQTT_BASE : String := "tc001"

/-- Configuration constant `PUBLISH_INTERVAL` from the script (seconds). -/
def PUBLISH_INTERVAL : Nat := 60

/-- Configuration constant `CLIENT_ID` from the script. -/
def CLIENT_ID : String := "tc001-time-publisher"

/-- The paho constant `mqtt.MQTT_ERR_SUCCESS` (which is 0). -/
def MQTT_ERR_SUCCESS : Nat := 0

/-- Python truthiness of an optional string: `None` and the empty string
are falsy, every other string is truthy.  Used for the
`if MQTT_USERNAME and MQTT_PASSWORD` test in `TimePublisher.__init__`. -/
def pyTruthy : Option String → Bool
  | none => false
  | some s => !(s == "")

/-- The observable result of `TimePublisher.__init__`: the client id passed
to the constructor and the credentials installed via `username_pw_set`,
if any. -/
structure ClientSetup where
  client_id : String
  credentials : Option (String × String)
deriving DecidableEq

/-- Embedding of `TimePublisher.__init__` (lines 51-67), parametrised by
the `MQTT_USERNAME` / `MQTT_PASSWORD` configuration values: credentials
are installed exactly when `MQTT_USERNAME and MQTT_PASSWORD` is truthy. -/
def initPublisher (username password : Option String) : ClientSetup :=
  { client_id := CLIENT_ID,
    credentials :=
      if pyTruthy username && pyTruthy password then
        some (username.getD "", password.getD "")
      else none }

/-- One MQTT message handed to `client.publish`. -/
structure Message where
  topic : String
  payload : String
  qos : Nat
deriving DecidableEq

/-- The result of `json.dumps({"unix_time": t})` for a nonnegative integer
`t` (Python's default separators put one space after the colon). -/
def jsonDumpsUnixTime (t : Nat) : String :=
  "\x7b\"unix_time\": " ++ toString t ++ "\x7d"

/-- The message built and published by `publish_time` when the captured
wall-clock second is `t`. -/
def mkTimeMessage (t : Nat) : Message :=
  { topic := MQTT_BASE ++ "/time", payload := jsonDumpsUnixTime t, qos := 1 }

/-- The observable outcome of one `publish_time` call: the boolean the
method returns, the message passed to `client.publish` (if that call was
made at all), and the value of `self.connected` when the method returns
(the method body never assigns the flag). -/
structure PublishResult where
  ok : Bool
  attempted : Option Message
  connectedAfter : Bool
deriving DecidableEq

/-- Embedding of `TimePublisher.publish_time` (lines 106-135).
`connected` is the current value of `self.connected`; `t` is the value of
`int(time.time())`, the current wall-clock time truncated to whole
seconds; `pubRc` is the behaviour of the `client.publish` call (`none`:
it raised an exception, caught by the `except` clause; `some rc`: it
returned a result object with `result.rc = rc`). -/
def publish_time (connected : Bool) (t : Nat) (pubRc : Option Nat) : PublishResult :=
  if connected then
    match pubRc with
    | some rc =>
        { ok := rc == MQTT_ERR_SUCCESS,
          attempted := some (mkTimeMessage t),
          connectedAfter := connected }
    | none =>
        { ok := false,
          attempted := some (mkTimeMessage t),
          connectedAfter := connected }
  else
    { ok := false, attempted := none, connectedAfter := connected }

/-- Environment of one `connect()` call. `raises`: `client.connect` raised
an exception. `silent`: no `on_connect` callback arrives during the wait.
`callback arrival rc`: the background I/O thread runs `on_connect` with
reason code `rc`, and the flag update is visible by poll step `arrival`
(each poll step is 0.5 time-units). -/
inductive ConnectEnv where
  | raises
  | silent
  | callback (arrival : Nat) (rc : Nat)
deriving DecidableEq

/-- Value of `self.connected` as seen after `k` poll steps of the waiting
loop in `connect()`: `on_connect` (lines 69-76) sets the flag to true for
reason code 0 and to false otherwise. -/
def connAck (env : ConnectEnv) (k : Nat) : Bool :=
  match env with
  | ConnectEnv.callback a rc => decide (a ≤ k ∧ rc = 0)
  | _ => false

/-- The waiting loop of `connect()` (lines 92-95), counted in 0.5-unit
steps: `while not self.connected and wait_time < 10: sleep(0.5)`.
`k` is the number of sleeps performed so far, `fuel` the number still
allowed; the loop admits at most 20 sleeps (10 time-units). -/
def pollAux (env : ConnectEnv) : Nat → Nat → Nat
  | k, 0 => k
  | k, fuel + 1 => if connAck env k then k else pollAux env (k + 1) fuel

/-- Maximal number of 0.5-unit poll steps: 20 steps = 10 time-units. -/
def MAX_POLLS : Nat := 20

/-- Total number of 0.5-unit sleeps performed by one `connect()` call. -/
def pollSteps (env : ConnectEnv) : Nat := pollAux env 0 MAX_POLLS

/-- The observable outcome of one `connect()` call: the boolean it returns,
the number of 0.5-unit sleeps it performed, and the non-zero reason code
logged by `on_connect` during the call, if the broker refused the
session within the waiting window. -/
structure ConnectResult where
  ok : Bool
  halfSteps : Nat
  refusalLogged : Option Nat
deriving DecidableEq

/-- Embedding of `TimePublisher.connect` (lines 85-104): on an exception
from the client the `except` clause returns `False`; otherwise the call
polls `self.connected` every 0.5 units for at most 10 units and returns
the final value of the flag. -/
def connect (env : ConnectEnv) : ConnectResult :=
  match env with
  | ConnectEnv.raises => { ok := false, halfSteps := 0, refusalLogged := none }
  | _ =>
    let k := pollSteps env
    { ok := connAck env k,
      halfSteps := k,
      refusalLogged :=
        match env with
        | ConnectEnv.callback a rc =>
            if a ≤ MAX_POLLS ∧ rc ≠ 0 then some rc else none
        | _ => none }

/-- Environment of one iteration of `run()`'s main loop. `interrupt`: a
KeyboardInterrupt is raised during the iteration (for example mid-sleep).
`crash`: an unexpected exception is raised during the iteration.
`step ad cenv pubRc t`: a normal iteration in which the background thread
delivered an `on_disconnect` callback before the flag is read exactly
when `ad` is true, a reconnect attempt (if one is made) behaves like
`cenv`, the publish call (if one is made) behaves like `pubRc`, and the
captured wall-clock second is `t`. -/
inductive IterEnv where
  | interrupt
  | crash
  | step (asyncDisconnect : Bool) (cenv : ConnectEnv) (pubRc : Option Nat) (t : Nat)
deriving DecidableEq

/-- Observable events of a run: a message handed to `client.publish`, a
`time.sleep` of the given number of time-units, the `client.loop_stop()`
call, and the `client.disconnect()` call. -/
inductive Event where
  | published (m : Message)
  | slept (seconds : Nat)
  | loopStopped
  | disconnectCalled
deriving DecidableEq

/-- Embedding of the `while True` loop of `TimePublisher.run`
(lines 148-159), driven by one `IterEnv` per iteration.  Returns the event
trace of the loop body together with a flag telling whether the loop was
terminated by an exception (KeyboardInterrupt or unexpected error) — in
which case control passes to the `finally` block — or the supplied
environment was exhausted with the loop still running. -/
def runLoop : Bool → List IterEnv → List Event × Bool
  | _, [] => ([], false)
  | _, IterEnv.interrupt :: _ => ([], true)
  | _, IterEnv.crash :: _ => ([], true)
  | c, IterEnv.step ad cenv pubRc t :: rest =>
    let flag := if ad then false else c
    if flag then
      let pr := publish_time flag t pubRc
      let next := runLoop pr.connectedAfter rest
      let pubEvents : List Event :=
        match pr.attempted with
        | some m => [Event.published m]
        | none => []
      (pubEvents ++ Event.slept PUBLISH_INTERVAL :: next.1, next.2)
    else
      let cr := connect cenv
      if cr.ok then
        let next := runLoop true rest
        (Event.slept PUBLISH_INTERVAL :: next.1, next.2)
      else
        let next := runLoop false rest
        (Event.slept 30 :: next.1, next.2)

/-- Environment of one whole `run()` call: the behaviour of the initial
`connect()` and the per-iteration environments of the main loop. -/
structure RunEnv where
  initConnect : ConnectEnv
  iters : List IterEnv

/-- Embedding of `TimePublisher.run` (lines 137-170): if the initial
`connect()` fails the method returns 1 before entering the `try` block
(so the `finally` block does not run); otherwise the main loop runs and,
if it is terminated by an exception, the `finally` block stops the
background I/O loop and disconnects, and the method returns 0.  The first
component is `some code` when the method returned and `none` when the
supplied environment was exhausted with the loop still running. -/
def run (env : RunEnv) : Option Nat × List Event :=
  if (connect env.initConnect).ok then
    let r := runLoop true env.iters
    if r.2 then (some 0, r.1 ++ [Event.loopStopped, Event.disconnectCalled])
    else (none, r.1)
  else (some 1, [])

/-- An iteration environment that cannot establish a connection: a normal
step whose reconnect attempt fails, or a loop-terminating exception. -/
def connectFailsEnv : IterEnv → Bool
  | IterEnv.step _ cenv _ _ => !(connect cenv).ok
  | _ => true

/-- No iteration of the list lets a reconnect attempt succeed. -/
def noConnectSuccess (envs : List IterEnv) : Bool := envs.all connectFailsEnv

/-- Whether an event trace contains a publish attempt. -/
def hasPublished (evs : List Event) : Bool :=
  evs.any fun e =>
    match e with
    | Event.published _ => true
    | _ => false

/-- When the flag is set, `publish_time` always hands `client.publish` the
message built from the captured second, and it never writes the flag. -/
lemma publish_time_true_attempted (t : Nat) (pubRc : Option Nat) :
    (publish_time true t pubRc).attempted = some (mkTimeMessage t) ∧
      (publish_time true t pubRc).connectedAfter = true := by
  cases pubRc <;> simp [publish_time]

/-- Step characterization of one normal iteration of the main loop. -/
lemma runLoop_step (c ad : Bool) (cenv : ConnectEnv) (pubRc : Option Nat)
    (t : Nat) (rest : List IterEnv) :
    runLoop c (IterEnv.step ad cenv pubRc t :: rest) =
      if (if ad then false else c) then
        (Event.published (mkTimeMessage t) ::
            Event.slept PUBLISH_INTERVAL :: (runLoop true rest).1,
          (runLoop true rest).2)
      else if (connect cenv).ok then
        (Event.slept PUBLISH_INTERVAL :: (runLoop true rest).1,
          (runLoop true rest).2)
      else
        (Event.slept 30 :: (runLoop false rest).1, (runLoop false rest).2) := by
  cases ad <;> cases c <;> cases pubRc <;>
    simp [runLoop, publish_time]

/-- The waiting loop performs at most `k + fuel` poll steps in total. -/
lemma pollAux_le (env : ConnectEnv) (fuel : Nat) :
    ∀ k, pollAux env k fuel ≤ k + fuel := by
  induction fuel with
  | zero => intro k; simp [pollAux]
  | succ n ih =>
    intro k
    by_cases h : connAck env k = true
    · simp [pollAux, h]
    · simp only [pollAux, h, if_false, Bool.false_eq_true]
      have := ih (k + 1)
      omega

/-- If the flag never becomes true, the waiting loop exhausts its budget. -/
lemma pollAux_allFalse (env : ConnectEnv) (h : ∀ k, connAck env k = false)
    (fuel : Nat) : ∀ k, pollAux env k fuel = k + fuel := by
  induction fuel with
  | zero => intro k; simp [pollAux]
  | succ n ih =>
    intro k
    simp only [pollAux, h k, Bool.false_eq_true, if_false]
    have := ih (k + 1)
    omega

/-- The loop body never emits the finalization events; those come only
from the `finally` block. -/
lemma runLoop_no_finalizer (envs : List IterEnv) :
    ∀ c : Bool, Event.loopStopped ∉ (runLoop c envs).1 ∧
      Event.disconnectCalled ∉ (runLoop c envs).1 := by
  induction envs with
  | nil => intro c; simp [runLoop]
  | cons e rest ih =>
    intro c
    cases e with
    | interrupt => simp [runLoop]
    | crash => simp [runLoop]
    | step ad cenv pubRc t =>
      rw [runLoop_step]
      rcases ih true with ⟨ht1, ht2⟩
      rcases ih false with ⟨hf1, hf2⟩
      by_cases hco : (connect cenv).ok = true <;>
        cases ad <;> cases c <;>
        simp [hco, ht1, ht2, hf1, hf2]

/-- While every reconnect attempt fails, a run that starts disconnected
hands nothing to `client.publish`. -/
lemma runLoop_noConnect_noPublish (envs : List IterEnv)
    (h : noConnectSuccess envs = true) :
    hasPublished (runLoop false envs).1 = false := by
  induction envs with
  | nil => simp [runLoop, hasPublished]
  | cons e rest ih =>
    have hall : connectFailsEnv e = true ∧ noConnectSuccess rest = true := by
      simpa [noConnectSuccess, List.all_cons] using h
    cases e with
    | interrupt => simp [runLoop, hasPublished]
    | crash => simp [runLoop, hasPublished]
    | step ad cenv pubRc t =>
      have hfail : (connect cenv).ok = false := by
        have := hall.1
        simpa [connectFailsEnv] using this
      rw [runLoop_step]
      cases ad <;>
        simp [hfail, hasPublished, List.any_cons, ih hall.2,
          hasPublished] at ih hall ⊢ <;>
        simpa [hasPublished] using ih hall.2

/-- C1: for every captured wall-clock second `t ≥ 0`, `publish_time`
called while connected hands `client.publish` exactly the message with
topic `tc001/time` (that is, `MQTT_BASE ++ "/time"`), payload the JSON
object with the single key `unix_time` bound to the integer `t` — no
extra fields and no fractional component — and QoS 1 (at-least-once
delivery intent). -/
theorem publish_time_wire_format (t : Nat) (pubRc : Option Nat) :
    (publish_time true t pubRc).attempted =
      some { topic := "tc001/time",
             payload := "\x7b\"unix_time\": " ++ toString t ++ "\x7d",
             qos := 1 } := by
  cases pubRc <;>
    simp [publish_time, mkTimeMessage, jsonDumpsUnixTime, MQTT_BASE]

/-- C2: while the flag is not Connected, `publish_time` is a no-op: it
hands nothing to `client.publish` and returns the NotConnected failure
(`False`); moreover a message is handed to `client.publish` exactly when
the flag is Connected, so every publish attempt of the embedding occurs
in the Connected state. -/
theorem publish_time_requires_connected (c : Bool) (t : Nat) (pubRc : Option Nat) :
    publish_time false t pubRc =
        { ok := false, attempted := none, connectedAfter := false } ∧
      (publish_time c t pubRc).attempted =
        (if c then some (mkTimeMessage t) else none) := by
  constructor
  · cases pubRc <;> simp [publish_time]
  · cases c <;> cases pubRc <;> simp [publish_time]

/-- C3: `connect()` performs at most `MAX_POLLS = 20` poll steps of 0.5
time-units each, so it blocks for at most 10 time-units; if no
acknowledgment arrives it fails (the timeout case, with no refusal code);
if the broker rejects the session with a non-zero reason code delivered
within the window, it fails and the non-zero code is carried in the
distinct refusal log entry produced by `on_connect`. -/
theorem connect_bounded_timeout_and_refusal (a rc : Nat)
    (hrc : rc ≠ 0) (ha : a ≤ MAX_POLLS) :
    (∀ env, (connect env).halfSteps ≤ MAX_POLLS) ∧
      connect ConnectEnv.silent =
        { ok := false, halfSteps := MAX_POLLS, refusalLogged := none } ∧
      connect (ConnectEnv.callback a rc) =
        { ok := false, halfSteps := MAX_POLLS, refusalLogged := some rc } := by
  refine ⟨?_, by decide, ?_⟩
  · intro env
    cases env with
    | raises => simp [connect]
    | silent =>
      simpa [connect, pollSteps] using pollAux_le ConnectEnv.silent MAX_POLLS 0
    | callback a2 rc2 =>
      simpa [connect, pollSteps] using
        pollAux_le (ConnectEnv.callback a2 rc2) MAX_POLLS 0
  · have hfalse : ∀ k, connAck (ConnectEnv.callback a rc) k = false := by
      intro k
      simp [connAck, hrc]
    simp [connect, pollSteps, pollAux_allFalse _ hfalse MAX_POLLS 0, hfalse,
      ha, hrc]

/-- Witness for C3 at the concrete refusal code 5 arriving at poll step 3. -/
theorem connect_bounded_timeout_and_refusal_witness :
    (connect (ConnectEnv.callback 3 5)).refusalLogged = some 5 := by
  have h := connect_bounded_timeout_and_refusal 3 5 (by decide) (by decide)
  rw [h.2.2]

/-- C4: in the main loop, starting disconnected, `n` consecutive failed
reconnect attempts each contribute exactly one 30-time-unit cooldown
sleep — no publish and no publish-interval sleep — and restart the loop
from the top still disconnected; after a subsequent successful
reconnect, the loop falls through to the interval sleep and continues
connected, so publishing resumes normally on the following cycles. -/
theorem run_cooldown_then_resume (n : Nat) (fe oe : ConnectEnv)
    (pubRc : Option Nat) (t : Nat) (rest : List IterEnv)
    (hf : (connect fe).ok = false) (ho : (connect oe).ok = true) :
    runLoop false
        (List.replicate n (IterEnv.step false fe pubRc t) ++
          IterEnv.step false oe pubRc t :: rest) =
      (List.replicate n (Event.slept 30) ++
          Event.slept PUBLISH_INTERVAL :: (runLoop true rest).1,
        (runLoop true rest).2) := by
  induction n with
  | zero =>
    simp only [List.replicate, List.nil_append]
    rw [runLoop_step]
    simp [ho]
  | succ m ih =>
    simp only [List.replicate_succ, List.cons_append]
    rw [runLoop_step]
    simp [hf, ih]

/-- Witness for C4: two failed reconnects, then success, then one
connected cycle that publishes. -/
theorem run_cooldown_then_resume_witness :
    runLoop false
        (List.replicate 2 (IterEnv.step false ConnectEnv.silent (some 0) 100) ++
          IterEnv.step false (ConnectEnv.callback 0 0) (some 0) 100 ::
            [IterEnv.step false (ConnectEnv.callback 0 0) (some 0) 160]) =
      (List.replicate 2 (Event.slept 30) ++
          Event.slept PUBLISH_INTERVAL ::
            (runLoop true
              [IterEnv.step false (ConnectEnv.callback 0 0) (some 0) 160]).1,
        (runLoop true
          [IterEnv.step false (ConnectEnv.callback 0 0) (some 0) 160]).2) :=
  run_cooldown_then_resume 2 ConnectEnv.silent (ConnectEnv.callback 0 0)
    (some 0) 100 _ (by decide) (by decide)

/-- C5: `run()` returns status 1 exactly when the initial `connect()`
fails; whenever the main loop terminates (in particular on a
KeyboardInterrupt) the status is 0; and an interrupt ends the loop at
once with no further events, so no publish is attempted after the
interrupt is received. -/
theorem run_exit_status (env : RunEnv) (c : Bool) (rest : List IterEnv) :
    ((run env).1 = some 1 ↔ (connect env.initConnect).ok = false) ∧
      ((connect env.initConnect).ok = true →
        (runLoop true env.iters).2 = true → (run env).1 = some 0) ∧
      runLoop c (IterEnv.interrupt :: rest) = ([], true) := by
  refine ⟨?_, ?_, by cases c <;> rfl⟩
  · by_cases h : (connect env.initConnect).ok = true
    · simp only [run, h, if_true]
      cases h2 : (runLoop true env.iters).2 <;> simp [h, h2]
    · simp only [Bool.not_eq_true] at h
      simp [run, h]
  · intro h1 h2
    simp [run, h1, h2]

/-- Witness for C5: a raising initial connect yields status 1; a
successful connect followed by an interrupt yields status 0. -/
theorem run_exit_status_witness :
    (run (RunEnv.mk ConnectEnv.raises [])).1 = some 1 ∧
      (run (RunEnv.mk (ConnectEnv.callback 0 0) [IterEnv.interrupt])).1 =
        some 0 :=
  ⟨(run_exit_status (RunEnv.mk ConnectEnv.raises []) false []).1.mpr
      (by decide),
   (run_exit_status (RunEnv.mk (ConnectEnv.callback 0 0) [IterEnv.interrupt])
      false []).2.1 (by decide) (by decide)⟩

/-- C6: whenever the main loop terminates — and both an interrupt and an
unexpected exception terminate it — the `finally` block runs: the trace
of `run()` is the loop trace followed by stopping the background I/O loop
and the graceful disconnect, and each of those two finalization events
occurs exactly once in the whole trace. -/
theorem run_releases_session (env : RunEnv) (c : Bool) (rest : List IterEnv)
    (h1 : (connect env.initConnect).ok = true)
    (h2 : (runLoop true env.iters).2 = true) :
    (run env).2 =
        (runLoop true env.iters).1 ++
          [Event.loopStopped, Event.disconnectCalled] ∧
      (run env).2.count Event.loopStopped = 1 ∧
      (run env).2.count Event.disconnectCalled = 1 ∧
      runLoop c (IterEnv.crash :: rest) = ([], true) := by
  have hrun : (run env).2 =
      (runLoop true env.iters).1 ++
        [Event.loopStopped, Event.disconnectCalled] := by
    simp [run, h1, h2]
  rcases runLoop_no_finalizer env.iters true with ⟨hm1, hm2⟩
  refine ⟨hrun, ?_, ?_, by cases c <;> rfl⟩
  · rw [hrun, List.count_append, List.count_eq_zero.mpr hm1]
    simp
  · rw [hrun, List.count_append, List.count_eq_zero.mpr hm2]
    simp

/-- Witness for C6: an unexpected error in the first iteration still
releases the session exactly once. -/
theorem run_releases_session_witness :
    (run (RunEnv.mk (ConnectEnv.callback 0 0) [IterEnv.crash])).2.count
        Event.disconnectCalled = 1 :=
  (run_releases_session (RunEnv.mk (ConnectEnv.callback 0 0) [IterEnv.crash])
    true [] (by decide) (by decide)).2.2.1

/-- C7: an `on_disconnect` notification delivered before the loop reads
the flag forces the reconnect path regardless of the previous flag value
(no publish that iteration; after a failed reconnect the loop continues
disconnected); while every reconnect attempt keeps failing, nothing is
handed to `client.publish`; and once a reconnect succeeds the loop
continues in the Connected state, so publishing resumes. -/
theorem disconnect_suspends_until_reconnect (c : Bool) (dcenv oe : ConnectEnv)
    (pubRc : Option Nat) (t : Nat) (rest envs : List IterEnv)
    (hf : (connect dcenv).ok = false) (hn : noConnectSuccess envs = true)
    (ho : (connect oe).ok = true) :
    runLoop c (IterEnv.step true dcenv pubRc t :: rest) =
        (Event.slept 30 :: (runLoop false rest).1, (runLoop false rest).2) ∧
      hasPublished (runLoop false envs).1 = false ∧
      runLoop false (IterEnv.step false oe pubRc t :: rest) =
        (Event.slept PUBLISH_INTERVAL :: (runLoop true rest).1,
          (runLoop true rest).2) := by
  refine ⟨?_, runLoop_noConnect_noPublish envs hn, ?_⟩
  · rw [runLoop_step]
    simp [hf]
  · rw [runLoop_step]
    simp [ho]

/-- Witness for C7: a mid-run disconnect with a silent broker suspends
publishing. -/
theorem disconnect_suspends_until_reconnect_witness :
    hasPublished (runLoop false
        [IterEnv.step false ConnectEnv.silent (some 0) 7]).1 = false :=
  (disconnect_suspends_until_reconnect true ConnectEnv.silent
      (ConnectEnv.callback 0 0) (some 0) 7 []
      [IterEnv.step false ConnectEnv.silent (some 0) 7]
      (by decide) (by decide) (by decide)).2.1

/-- C8: `publish_time` never writes the connected flag; a non-success
publish return code only makes it return `False` (the message was still
handed to `client.publish` once, and the flag stays Connected); and in
the main loop a connected iteration whose publish fails still completes
its interval sleep and continues to the next cycle still connected — a
single publish failure never terminates the loop. -/
theorem publish_failure_is_benign (c : Bool) (t : Nat) (pubRc : Option Nat)
    (rc : Nat) (cenv : ConnectEnv) (rest : List IterEnv) (hrc : rc ≠ 0) :
    (publish_time c t pubRc).connectedAfter = c ∧
      publish_time true t (some rc) =
        { ok := false, attempted := some (mkTimeMessage t),
          connectedAfter := true } ∧
      runLoop true (IterEnv.step false cenv (some rc) t :: rest) =
        (Event.published (mkTimeMessage t) ::
            Event.slept PUBLISH_INTERVAL :: (runLoop true rest).1,
          (runLoop true rest).2) := by
  refine ⟨?_, ?_, ?_⟩
  · cases c <;> cases pubRc <;> simp [publish_time]
  · have hbeq : (rc == MQTT_ERR_SUCCESS) = false := by
      simpa [MQTT_ERR_SUCCESS] using beq_eq_false_iff_ne.mpr hrc
    simp [publish_time, hbeq]
  · rw [runLoop_step]
    simp

/-- Witness for C8 at return code 1. -/
theorem publish_failure_is_benign_witness :
    publish_time true 42 (some 1) =
      { ok := false, attempted := some (mkTimeMessage 42),
        connectedAfter := true } :=
  (publish_failure_is_benign true 42 (some 1) 1 ConnectEnv.silent []
    (by decide)).2.1

/-- C9: the bodies of `connect()` and `publish_time` wrap their work in
try/except handlers, so an exception raised by the client library is
mapped to the `False` return value and never propagates: the raising
connect environment yields the failure result, and a raising publish call
yields `False`. -/
theorem handlers_catch_exceptions (c : Bool) (t : Nat) :
    connect ConnectEnv.raises =
        { ok := false, halfSteps := 0, refusalLogged := none } ∧
      (publish_time c t none).ok = false := by
  refine ⟨rfl, ?_⟩
  cases c <;> simp [publish_time]

/-- C10: credentials are installed on the client at construction exactly
when both the username and the password are configured and truthy
(non-None and non-empty); configuring only one of them, or an empty
string for either, installs no credentials. -/
theorem credentials_require_both (u p : String) (us pw : Option String)
    (hu : u ≠ "") (hp : p ≠ "") :
    (initPublisher (some u) (some p)).credentials = some (u, p) ∧
      (initPublisher none pw).credentials = none ∧
      (initPublisher us none).credentials = none ∧
      (initPublisher (some "") pw).credentials = none ∧
      (initPublisher us (some "")).credentials = none := by
  refine ⟨?_, ?_, ?_, ?_, ?_⟩
  · have hu2 : (u == "") = false := beq_eq_false_iff_ne.mpr hu
    have hp2 : (p == "") = false := beq_eq_false_iff_ne.mpr hp
    simp [initPublisher, pyTruthy, hu2, hp2]
  · simp [initPublisher, pyTruthy]
  · simp [initPublisher, pyTruthy]
  · simp [initPublisher, pyTruthy]
  · simp [initPublisher, pyTruthy]

/-- Witness for C10 at concrete credential strings. -/
theorem credentials_require_both_witness :
    (initPublisher (some "alice") (some "secret")).credentials =
        some ("alice", "secret") ∧
      (initPublisher (some "alice") none).credentials = none :=
  ⟨(credentials_require_both "alice" "secret" none none
      (by decide) (by decide)).1,
   (credentials_require_both "alice" "secret" (some "alice") none
      (by decide) (by decide)).2.2.1⟩

end MqttTimePublisher
